import Mathlib

/-!
Verification development for the m10fx FX-swap service.

The definitions below are a shallow embedding of `src/service/src/ledger.rs`
and `src/service/src/event.rs`:

* `rust_decimal::Decimal` is modelled as `ℚ` (exact rationals).  Decimal
  division rounds to 28 significant digits where the rational quotient is
  not exact; the algebraic facts proved below are the "within decimal
  precision" facts of the specification.  Decimal division by zero panics,
  which the embedding makes explicit (`FxRate.panic`).
* `AccountId` (16-byte ledger ids) and correlation contexts (`Vec<u8>`)
  are modelled as opaque naturals.
* The external ledger collaborator `get_account` followed by reading
  `instrument.code.to_lowercase()` is modelled as a function
  `AccountId → Option String` producing the lowercased instrument code,
  `none` meaning a failed lookup (`NotFound`/transient error).
* The swap-monitor polling loop reads the shared rate registry and the
  wall clock each tick; a run of the loop is modelled over a finite list
  of per-tick observations, each carrying the registry snapshot read that
  tick and the result of the `SystemTime::now() > valid_until` comparison.
  The loop body itself is translated literally from `launch_swap_task`.
* Panics (`expect`/`unwrap`) are explicit outcomes, never collapsed into
  ordinary error returns.
-/

set_option linter.unusedVariables false

namespace FxSwap

/-- Ledger account identifier (`m10_sdk::account::AccountId`), opaque. -/
abbrev AccountId := ℕ

/-- Correlation context (`context_id: Vec<u8>`), opaque. -/
abbrev Ctx := ℕ

/-- Type `rust_decimal::Decimal`, modelled as an exact rational. -/
abbrev Decimal := ℚ

/-- Constant `FX_SWAP_ACTION` from `src/service/src/lib.rs`. -/
def FX_SWAP_ACTION : String := "m10.fx.swap"

/-- Constant `FX_SWAP_METADATA` from `src/service/src/lib.rs`. -/
def FX_SWAP_METADATA : String := "m10.fx.execute"

/-- Struct `event::Request` from `src/service/src/event.rs`. -/
structure Request where
  «from» : AccountId
  «to» : AccountId
  amount : Decimal
deriving DecidableEq, Repr

/-- Struct `event::Quote` from `src/service/src/event.rs`. -/
structure Quote where
  request : Request
  rate : Decimal
  intermediary : AccountId
deriving DecidableEq, Repr

/-- Struct `event::Execute` from `src/service/src/event.rs`.  `valid_until` is an
epoch timestamp in seconds; note the source's field name `lower_limits`
(plural) is kept verbatim. -/
structure Execute where
  request : Request
  valid_until : ℕ
  upper_limit : Decimal
  lower_limits : Decimal
deriving DecidableEq, Repr

/-- Enum `event::Event` from `src/service/src/event.rs`. -/
inductive Event where
  | Request (request : Request)
  | Quote (quote : Quote)
  | Execute (execute : Execute)
  | Completed
deriving DecidableEq, Repr

/-- One entry of the rate registry: the `Ledger` struct of
`src/service/src/ledger.rs` (the signing key and gRPC client handles are
capability handles of the excluded ledger-client subsystem and carry no
state relevant to the claims, so they are omitted). -/
structure Ledger where
  currency : String
  liquidity : AccountId
  base_rate : Decimal
deriving DecidableEq, Repr

/-- Alias `LedgerDB = Arc<HashMap<CurrencyCode, Ledger>>` from
`src/service/src/main.rs`, modelled as an association list. -/
abbrev LedgerDB := List (String × Ledger)

/-- Lookup `HashMap::get` on the registry. -/
def dbGet (db : LedgerDB) (currency : String) : Option Ledger :=
  (db.find? (fun p => p.1 == currency)).map (fun p => p.2)

/-- Outcome of a fallible computation that may also panic
(`Result` + `expect`/`unwrap`). -/
inductive PResult (α : Type) where
  | ok (a : α)
  | panicked
deriving DecidableEq, Repr

/-- Result of `get_fx_rate`: an `anyhow::Result<Decimal>` whose division
can additionally panic (decimal division by zero). -/
inductive FxRate where
  | ok (rate : Decimal)
  | err (msg : String)
  | panic
deriving DecidableEq, Repr

/-- Function `get_fx_rate` from `src/service/src/ledger.rs` lines 207-221: look up
both currencies in the registry (erroring on a missing one, `from` first),
then divide the base rates.  `rust_decimal` division panics when the
divisor is zero, hence the `panic` branch. -/
def get_fx_rate (db : LedgerDB) (from_currency to_currency : String) : FxRate :=
  match dbGet db from_currency with
  | none => .err ("Missing ledger for currency " ++ from_currency)
  | some from_ledger =>
    match dbGet db to_currency with
    | none => .err ("Missing ledger for currency " ++ to_currency)
    | some to_ledger =>
      if from_ledger.base_rate = 0 then .panic
      else .ok (to_ledger.base_rate / from_ledger.base_rate)

/-- Function `get_currencies` from `src/service/src/ledger.rs` lines 196-205:
resolve both accounts of a request through the ledger collaborator
(`resolve` models `Ledger::get_account` followed by
`instrument.unwrap().code.to_lowercase()`).  Either lookup may fail. -/
def get_currencies (resolve : AccountId → Option String) (request : Request) :
    Except Unit (String × String) :=
  match resolve request.«from» with
  | none => .error ()
  | some from_currency =>
    match resolve request.«to» with
    | none => .error ()
    | some to_currency => .ok (from_currency, to_currency)

/-- An outbound ledger submission: either a `CreateTransfer` with a single
`TransferStep`, or an `InvokeAction` (both built through
`LedgerClient::transaction_request` with a correlation context). -/
inductive Msg where
  | transfer (from_account to_account : AccountId) (amount : ℕ) (context_id : Ctx)
  | action (name : String) (from_account : AccountId) (target : AccountId)
      (payload : Event) (context_id : Ctx)
deriving DecidableEq, Repr

/-- Conversion `TryFrom<Decimal> for u64` (`rust_decimal`): `None` for negative
values, otherwise truncate toward zero (floor, as the value is
non-negative) and fail when the result does not fit in 64 bits.  Used by
`(execute.request.amount * rate).try_into()` at
`src/service/src/ledger.rs` line 242. -/
def decimalToU64 (q : Decimal) : Option ℕ :=
  if q < 0 then none
  else
    let t := (⌊q⌋).toNat
    if t < 2 ^ 64 then some t else none

/-- The state a swap-monitor task is spawned with: everything
`launch_swap_task` computes before `tokio::spawn` and moves into the
spawned future (`src/service/src/ledger.rs` lines 224-234). -/
structure SpawnedMonitor where
  execute : Execute
  context_id : Ctx
  from_currency : String
  to_currency : String
  to_ledger : Ledger
  limits : Decimal × Decimal
deriving DecidableEq, Repr

/-- The spawn-time phase of `launch_swap_task`
(`src/service/src/ledger.rs` lines 223-233), executed *before*
`tokio::spawn` and therefore still on the settlement listener's task:
`get_currencies(..).expect("Could not find FX rate")` and
`db.get(&to_currency).unwrap()` both panic on failure. -/
def spawnPhase (self : Ledger) (db : LedgerDB) (resolve : AccountId → Option String)
    (execute : Execute) (context_id : Ctx) : PResult SpawnedMonitor :=
  match get_currencies resolve execute.request with
  | .error _ => .panicked
  | .ok (from_currency, to_currency) =>
    match dbGet db to_currency with
    | none => .panicked
    | some to_ledger =>
      .ok { execute := execute, context_id := context_id,
            from_currency := from_currency, to_currency := to_currency,
            to_ledger := to_ledger,
            limits := (execute.lower_limits, execute.upper_limit) }

/-- Check `Range::<Decimal>::contains` on `execute.lower_limits..execute.upper_limit`
(half-open: `lower <= rate && rate < upper`),
`src/service/src/ledger.rs` line 239. -/
def limitsContains (limits : Decimal × Decimal) (rate : Decimal) : Bool :=
  decide (limits.1 ≤ rate) && decide (rate < limits.2)

/-- Outcome of running a swap-monitor task over a finite sequence of
polling ticks.  `armed` = the observations ended with the monitor still
polling; `settled` = the settlement branch ran to completion, with the
submissions it made; `panicked` = the task died, with the submissions made
before the panic. -/
inductive MonitorOutcome where
  | armed
  | settled (msgs : List Msg)
  | panicked (msgs : List Msg)
deriving DecidableEq, Repr

/-- The settlement branch of the monitor loop
(`src/service/src/ledger.rs` lines 242-294): convert
`execute.request.amount * rate` to a `u64` —
`.expect("invalid amount")` panics *before* anything is submitted — then
submit one `CreateTransfer` from `to_ledger.liquidity` to the request's
destination account, followed by one `InvokeAction` named
`FX_SWAP_ACTION` from `to_ledger.liquidity` targeted at the request's
source account with payload `Event::Completed`, both carrying the
monitor's correlation context, then `break`. -/
def settleOutcome (m : SpawnedMonitor) (rate : Decimal) : MonitorOutcome :=
  match decimalToU64 (m.execute.request.amount * rate) with
  | none => .panicked []
  | some amount =>
      .settled
        [Msg.transfer m.to_ledger.liquidity m.execute.request.«to» amount m.context_id,
         Msg.action FX_SWAP_ACTION m.to_ledger.liquidity m.execute.request.«from»
           Event.Completed m.context_id]

/-- What the monitor loop can observe on one polling tick: the registry
snapshot it reads through `get_fx_rate`, and the result of the
`SystemTime::now() > valid_until` comparison. -/
structure TickObs where
  db : LedgerDB
  time_exceeded : Bool
deriving DecidableEq, Repr

/-- The polling loop spawned by `launch_swap_task`
(`src/service/src/ledger.rs` lines 236-298), run over a finite list of
tick observations.  Each tick: `if let Ok(rate) = get_fx_rate(..)` — an
`Err` skips the tick (the loop sleeps and retries); a rate whose
computation panics kills the task; on a rate,
`limits_exceeded = !limits.contains(&rate)` is evaluated and
`limits_exceeded || time_exceeded` enters the settlement branch,
otherwise the loop continues with the next tick. -/
def runMonitor (m : SpawnedMonitor) : List TickObs → MonitorOutcome
  | [] => .armed
  | obs :: rest =>
    match get_fx_rate obs.db m.from_currency m.to_currency with
    | .panic => .panicked []
    | .err _ => runMonitor m rest
    | .ok rate =>
      let limits_exceeded := ! limitsContains m.limits rate
      if limits_exceeded || obs.time_exceeded then settleOutcome m rate
      else runMonitor m rest

/-- Function `Ledger::publish_quote` (`src/service/src/ledger.rs` lines 51-70): one
`InvokeAction` named `FX_SWAP_ACTION`, from this node's liquidity account,
targeted at the quoted request's source account, payload
`Event::Quote(quote)`, carrying the given correlation context. -/
def publish_quote (self : Ledger) (context_id : Ctx) (quote : Quote) : Msg :=
  Msg.action FX_SWAP_ACTION self.liquidity quote.request.«from»
    (Event.Quote quote) context_id

/-- Outcome of one iteration of a listener loop body: the submissions it
made (possibly none), or a panic that kills the listener task. -/
inductive HandlerOutcome where
  | msgs (l : List Msg)
  | panicked
deriving DecidableEq, Repr

/-- The body of `Ledger::observe_requests` for one decoded action payload
(`src/service/src/ledger.rs` lines 150-188): on a `Request`, resolve both
account currencies (a failed resolution drops the message); ignore the
request unless the source currency equals this node's currency; compute
the rate (an error drops the message; a division-by-zero panic kills the
listener); read the intermediary as
`db.get(&from_currency).unwrap().liquidity` and publish one quote.  All
other event variants are ignored. -/
def handleActionEvent (self : Ledger) (db : LedgerDB)
    (resolve : AccountId → Option String) (event : Event) (context_id : Ctx) :
    HandlerOutcome :=
  match event with
  | .Request request =>
    match get_currencies resolve request with
    | .error _ => .msgs []
    | .ok (from_currency, to_currency) =>
      if from_currency ≠ self.currency then .msgs []
      else
        match get_fx_rate db from_currency to_currency with
        | .panic => .panicked
        | .err _ => .msgs []
        | .ok rate =>
          match dbGet db from_currency with
          | none => .panicked
          | some from_ledger =>
            .msgs [publish_quote self context_id
                    { request := request, rate := rate,
                      intermediary := from_ledger.liquidity }]
  | _ => .msgs []

/-- Outcome of one iteration of `Ledger::observe_transfer` for one
transfer carrying decoded `FX_SWAP_METADATA`. -/
inductive ListenerStep where
  | continued
  | spawned (m : SpawnedMonitor)
  | panicked
deriving DecidableEq, Repr

/-- The body of `Ledger::observe_transfer` for one transfer whose metadata
decoded to an event (`src/service/src/ledger.rs` lines 109-122): on an
`Execute`, `launch_swap_task` is *awaited on the listener's own task*, so
its spawn-phase panics kill the listener; any other variant logs
"invalid event type" and the loop continues. -/
def handleTransferEvent (self : Ledger) (db : LedgerDB)
    (resolve : AccountId → Option String) (event : Event) (context_id : Ctx) :
    ListenerStep :=
  match event with
  | .Execute execute =>
    match spawnPhase self db resolve execute context_id with
    | .ok m => .spawned m
    | .panicked => .panicked
  | _ => .continued

/-- The settlement-listener loop of `Ledger::observe_transfer`
(`src/service/src/ledger.rs` lines 99-126) over a finite stream of decoded
transfer events: a panic in one iteration kills the task, so no later
element of the stream is processed; otherwise the loop accumulates the
monitors it spawned. -/
def observeTransferLoop (self : Ledger) (db : LedgerDB)
    (resolve : AccountId → Option String) :
    List (Event × Ctx) → PResult (List SpawnedMonitor)
  | [] => .ok []
  | (event, context_id) :: rest =>
    match handleTransferEvent self db resolve event context_id with
    | .panicked => .panicked
    | .continued => observeTransferLoop self db resolve rest
    | .spawned m =>
      match observeTransferLoop self db resolve rest with
      | .ok ms => .ok (m :: ms)
      | .panicked => .panicked

/-! ### Concrete fixtures

The end-to-end scenario of spec §8: registry `{usd: base 1, eur: base 0.9}`,
a request from a USD account (id 10) to a EUR account (id 20) for amount
100, margin 5% around the quoted rate 0.9. -/

/-- USD registry entry: liquidity account 1, base rate 1. -/
def usdLedger : Ledger := { currency := "usd", liquidity := 1, base_rate := 1 }

/-- EUR registry entry: liquidity account 2, base rate 0.9. -/
def eurLedger : Ledger := { currency := "eur", liquidity := 2, base_rate := 9/10 }

/-- Demo registry with both currencies. -/
def demoDB : LedgerDB := [("usd", usdLedger), ("eur", eurLedger)]

/-- Account resolution: account 10 is a USD account, account 20 a EUR
account. -/
def demoResolve : AccountId → Option String :=
  fun a => if a = 10 then some "usd" else if a = 20 then some "eur" else none

/-- Account resolution that fails on every account. -/
def failResolve : AccountId → Option String := fun _ => none

/-- Request: 100 from USD account 10 to EUR account 20. -/
def demoRequest : Request := { «from» := 10, «to» := 20, amount := 100 }

/-- Execute commitment over `demoRequest` with band `[0.855, 0.945)`. -/
def demoExecute : Execute :=
  { request := demoRequest, valid_until := 1700000000,
    upper_limit := 945/1000, lower_limits := 855/1000 }

/-- The monitor state `spawnPhase` produces for the demo execute. -/
def demoMonitor : SpawnedMonitor :=
  { execute := demoExecute, context_id := 7, from_currency := "usd",
    to_currency := "eur", to_ledger := eurLedger,
    limits := (855/1000, 945/1000) }

/-- EUR registry entry with base rate 0.805 (below the demo band). -/
def eurLedger805 : Ledger := { currency := "eur", liquidity := 2, base_rate := 805/1000 }

/-- Registry in which the EUR rate has moved to 0.805. -/
def demoDB805 : LedgerDB := [("usd", usdLedger), ("eur", eurLedger805)]

/-- The demo monitor as spawned against `demoDB805`. -/
def demoMonitor805 : SpawnedMonitor :=
  { execute := demoExecute, context_id := 7, from_currency := "usd",
    to_currency := "eur", to_ledger := eurLedger805,
    limits := (855/1000, 945/1000) }

/-- Registry missing the EUR entry. -/
def usdOnlyDB : LedgerDB := [("usd", usdLedger)]

/-- Registry entry whose base rate is zero. -/
def zeroLedger : Ledger := { currency := "zzz", liquidity := 3, base_rate := 0 }

/-- Registry containing a zero-base-rate currency. -/
def zeroDB : LedgerDB := [("zzz", zeroLedger), ("usd", usdLedger)]

/-! ### Evaluation lemmas -/

/-- The demo registry quotes EUR/USD at 0.9. -/
theorem demo_rate : get_fx_rate demoDB "usd" "eur" = FxRate.ok (9/10) := by
  have h1 : dbGet demoDB "usd" = some usdLedger := rfl
  have h2 : dbGet demoDB "eur" = some eurLedger := rfl
  simp [get_fx_rate, h1, h2, usdLedger, eurLedger]

/-- After the administrative move to 0.805, the registry quotes 0.805. -/
theorem demo_rate805 : get_fx_rate demoDB805 "usd" "eur" = FxRate.ok (805/1000) := by
  have h1 : dbGet demoDB805 "usd" = some usdLedger := rfl
  have h2 : dbGet demoDB805 "eur" = some eurLedger805 := rfl
  simp [get_fx_rate, h1, h2, usdLedger, eurLedger805]

/-- One polling tick with a successfully computed rate: the loop settles
exactly when `!limits.contains(&rate) || time_exceeded`. -/
theorem runMonitor_cons_ok (m : SpawnedMonitor) (obs : TickObs) (rest : List TickObs)
    (rate : Decimal)
    (h : get_fx_rate obs.db m.from_currency m.to_currency = .ok rate) :
    runMonitor m (obs :: rest) =
      if (! limitsContains m.limits rate || obs.time_exceeded) = true
      then settleOutcome m rate else runMonitor m rest := by
  simp only [runMonitor, h]

/-- One polling tick with a failed rate lookup is skipped. -/
theorem runMonitor_cons_err (m : SpawnedMonitor) (obs : TickObs) (rest : List TickObs)
    (msg : String)
    (h : get_fx_rate obs.db m.from_currency m.to_currency = .err msg) :
    runMonitor m (obs :: rest) = runMonitor m rest := by
  simp only [runMonitor, h]

/-- The half-open range check fails exactly outside `[lower, upper)`. -/
theorem limitsContains_eq_false_iff (limits : Decimal × Decimal) (rate : Decimal) :
    limitsContains limits rate = false ↔ (rate < limits.1 ∨ limits.2 ≤ rate) := by
  simp only [limitsContains, Bool.and_eq_false_iff, decide_eq_false_iff_not, not_le, not_lt]

/-- The half-open range check succeeds exactly inside `[lower, upper)`. -/
theorem limitsContains_eq_true_iff (limits : Decimal × Decimal) (rate : Decimal) :
    limitsContains limits rate = true ↔ (limits.1 ≤ rate ∧ rate < limits.2) := by
  simp only [limitsContains, Bool.and_eq_true, decide_eq_true_eq]

/-! ### Claims -/

/-- C3: for an Armed monitor observing a live rate `rate` on a tick before
`valid_until` (`time_exceeded = false`), the tick enters the settling
branch exactly when `rate` lies outside the half-open band
`[lower_limits, upper_limit)`; in particular a rate equal to the upper
limit is outside the range (breach) and a rate equal to the lower limit is
inside it (no breach), and a rate strictly inside leaves the monitor
armed. -/
theorem c3_band_breach_half_open (m : SpawnedMonitor) (obs : TickObs) (rate : Decimal)
    (h1 : get_fx_rate obs.db m.from_currency m.to_currency = .ok rate)
    (h2 : obs.time_exceeded = false)
    (h3 : m.limits.1 < m.limits.2) :
    (runMonitor m [obs] =
      if rate < m.limits.1 ∨ m.limits.2 ≤ rate then settleOutcome m rate
      else MonitorOutcome.armed)
    ∧ limitsContains m.limits m.limits.2 = false
    ∧ limitsContains m.limits m.limits.1 = true := by
  refine ⟨?_, ?_, ?_⟩
  · rw [runMonitor_cons_ok m obs [] rate h1, h2]
    by_cases hc : rate < m.limits.1 ∨ m.limits.2 ≤ rate
    · rw [if_pos hc]
      have hb : limitsContains m.limits rate = false :=
        (limitsContains_eq_false_iff _ _).mpr hc
      simp [hb]
    · rw [if_neg hc]
      have hb : limitsContains m.limits rate = true := by
        rcases Bool.eq_false_or_eq_true (limitsContains m.limits rate) with h | h
        · exact h
        · exact absurd ((limitsContains_eq_false_iff _ _).mp h) hc
      simp [hb, runMonitor]
  · exact (limitsContains_eq_false_iff _ _).mpr (Or.inr le_rfl)
  · exact (limitsContains_eq_true_iff _ _).mpr ⟨le_rfl, h3⟩

/-- Witness for C3 at the demo fixture (rate 0.9 inside [0.855, 0.945)). -/
theorem c3_witness :
    (runMonitor demoMonitor [⟨demoDB, false⟩] =
      if (9:ℚ)/10 < demoMonitor.limits.1 ∨ demoMonitor.limits.2 ≤ (9:ℚ)/10
      then settleOutcome demoMonitor ((9:ℚ)/10) else MonitorOutcome.armed)
    ∧ limitsContains demoMonitor.limits demoMonitor.limits.2 = false
    ∧ limitsContains demoMonitor.limits demoMonitor.limits.1 = true :=
  c3_band_breach_half_open demoMonitor ⟨demoDB, false⟩ (9/10) demo_rate rfl
    (by norm_num [demoMonitor])

/-- C4 (amended): when a stopping condition first fires at a tick with
observed rate `rate`, the monitor performs exactly one settlement transfer
whose amount is the fallible u64 conversion (truncation) of
`request.amount * rate`, followed by exactly one Completed announcement,
and exits: the outcome does not depend on any later tick. -/
theorem c4_settles_once_with_truncated_amount (m : SpawnedMonitor) (obs : TickObs)
    (rest : List TickObs) (rate : Decimal) (amount : ℕ)
    (h1 : get_fx_rate obs.db m.from_currency m.to_currency = .ok rate)
    (h2 : limitsContains m.limits rate = false ∨ obs.time_exceeded = true)
    (h3 : decimalToU64 (m.execute.request.amount * rate) = some amount) :
    runMonitor m (obs :: rest) =
      .settled [Msg.transfer m.to_ledger.liquidity m.execute.request.«to» amount m.context_id,
                Msg.action FX_SWAP_ACTION m.to_ledger.liquidity m.execute.request.«from»
                  Event.Completed m.context_id] := by
  rw [runMonitor_cons_ok m obs rest rate h1]
  have hcond : (! limitsContains m.limits rate || obs.time_exceeded) = true := by
    rcases h2 with h | h <;> simp [h]
  rw [if_pos hcond]
  simp [settleOutcome, h3]

/-- Witness for C4 (amended) at the 0.805 fixture: the band is breached,
and exactly one transfer (amount 80) plus one Completed are submitted
regardless of the later tick. -/
theorem c4_witness :
    runMonitor demoMonitor805 [⟨demoDB805, false⟩, ⟨demoDB805, false⟩] =
      .settled [Msg.transfer 2 20 80 7,
                Msg.action FX_SWAP_ACTION 2 10 Event.Completed 7] :=
  c4_settles_once_with_truncated_amount demoMonitor805 ⟨demoDB805, false⟩
    [⟨demoDB805, false⟩] (805/1000) 80 demo_rate805
    (Or.inl (by rw [limitsContains_eq_false_iff]; norm_num [demoMonitor805]))
    (by norm_num [decimalToU64, demoMonitor805, demoExecute, demoRequest]; decide)

/-- C4 counterexample: at the 0.805 fixture the product
`request.amount * rate` is `80.5`, but the submitted transfer amount is
its truncation `80` — the claim's "final transfer amount equals
request.amount multiplied by the rate" fails at this input. -/
theorem c4_counterexample :
    runMonitor demoMonitor805 [⟨demoDB805, false⟩] =
      .settled [Msg.transfer 2 20 80 7,
                Msg.action FX_SWAP_ACTION 2 10 Event.Completed 7]
    ∧ ((80 : ℚ) ≠ demoExecute.request.amount * (805/1000)) := by
  constructor
  · rw [runMonitor_cons_ok demoMonitor805 ⟨demoDB805, false⟩ [] (805/1000) demo_rate805]
    have hb : limitsContains demoMonitor805.limits (805/1000) = false := by
      rw [limitsContains_eq_false_iff]; norm_num [demoMonitor805]
    rw [if_pos (by simp [hb])]
    simp [settleOutcome, decimalToU64, demoMonitor805, demoExecute, demoRequest]
    norm_num
    decide
  · norm_num [demoExecute, demoRequest]

/-- C5 (amended): both stopping conditions are checked on every tick whose
rate lookup succeeds and either alone suffices — the deadline alone
(`time_exceeded`, any in-band rate) and the band breach alone both enter
the settling branch — while a tick whose rate lookup fails is skipped and
the monitor keeps polling, *even when the deadline has already passed*. -/
theorem c5_deadline_and_lookup_failure_skip :
    (∀ (m : SpawnedMonitor) (obs : TickObs) (rest : List TickObs) (rate : Decimal),
      get_fx_rate obs.db m.from_currency m.to_currency = .ok rate →
      obs.time_exceeded = true →
      runMonitor m (obs :: rest) = settleOutcome m rate)
    ∧ (∀ (m : SpawnedMonitor) (obs : TickObs) (rest : List TickObs) (rate : Decimal),
      get_fx_rate obs.db m.from_currency m.to_currency = .ok rate →
      limitsContains m.limits rate = false →
      runMonitor m (obs :: rest) = settleOutcome m rate)
    ∧ (∀ (m : SpawnedMonitor) (obs : TickObs) (rest : List TickObs) (msg : String),
      get_fx_rate obs.db m.from_currency m.to_currency = .err msg →
      runMonitor m (obs :: rest) = runMonitor m rest) := by
  refine ⟨?_, ?_, ?_⟩
  · intro m obs rest rate h1 h2
    rw [runMonitor_cons_ok m obs rest rate h1, h2]
    simp
  · intro m obs rest rate h1 h2
    rw [runMonitor_cons_ok m obs rest rate h1, h2]
    simp
  · intro m obs rest msg h
    exact runMonitor_cons_err m obs rest msg h

/-- Witness for C5 (amended): deadline alone settles at the demo fixture;
band breach alone settles at the 0.805 fixture; a failed lookup tick is
skipped in front of any remaining ticks. -/
theorem c5_witness :
    runMonitor demoMonitor [⟨demoDB, true⟩] = settleOutcome demoMonitor (9/10)
    ∧ runMonitor demoMonitor805 [⟨demoDB805, false⟩] =
        settleOutcome demoMonitor805 (805/1000)
    ∧ runMonitor demoMonitor [⟨usdOnlyDB, true⟩, ⟨demoDB, true⟩] =
        runMonitor demoMonitor [⟨demoDB, true⟩] :=
  ⟨c5_deadline_and_lookup_failure_skip.1 demoMonitor ⟨demoDB, true⟩ [] (9/10)
      demo_rate rfl,
   c5_deadline_and_lookup_failure_skip.2.1 demoMonitor805 ⟨demoDB805, false⟩ []
      (805/1000) demo_rate805
      (by rw [limitsContains_eq_false_iff]; norm_num [demoMonitor805]),
   c5_deadline_and_lookup_failure_skip.2.2 demoMonitor ⟨usdOnlyDB, true⟩
      [⟨demoDB, true⟩] ("Missing ledger for currency " ++ "eur") rfl⟩

/-- C5 counterexample: a tick taken after the deadline
(`time_exceeded = true`) whose rate lookup fails does *not* transition the
monitor to Settling — it stays armed — contradicting the claim that any
tick after `valid_until` settles. -/
theorem c5_counterexample :
    (TickObs.mk usdOnlyDB true).time_exceeded = true
    ∧ runMonitor demoMonitor [⟨usdOnlyDB, true⟩] = MonitorOutcome.armed :=
  ⟨rfl, rfl⟩

/-- C6: the quote calculator returns `registry[to].base_rate /
registry[from].base_rate` when both codes are present (and the division is
defined, see C9), and returns its missing-currency error exactly when one
of the codes is absent from the registry.  It is a pure function of the
registry snapshot: no side effects by construction. -/
theorem c6_get_fx_rate_contract (db : LedgerDB) (from_currency to_currency : String) :
    (∀ from_ledger to_ledger,
      dbGet db from_currency = some from_ledger →
      dbGet db to_currency = some to_ledger →
      from_ledger.base_rate ≠ 0 →
      get_fx_rate db from_currency to_currency =
        .ok (to_ledger.base_rate / from_ledger.base_rate))
    ∧ ((∃ msg, get_fx_rate db from_currency to_currency = .err msg) ↔
        (dbGet db from_currency = none ∨ dbGet db to_currency = none)) := by
  constructor
  · intro fl tl hf ht hz
    simp [get_fx_rate, hf, ht, hz]
  · constructor
    · rintro ⟨msg, hmsg⟩
      by_contra hc
      push_neg at hc
      obtain ⟨hf, ht⟩ := hc
      cases hfo : dbGet db from_currency with
      | none => exact hf hfo
      | some fl =>
        cases hto : dbGet db to_currency with
        | none => exact ht hto
        | some tl =>
          simp only [get_fx_rate, hfo, hto] at hmsg
          by_cases hz : fl.base_rate = 0
          · rw [if_pos hz] at hmsg
            cases hmsg
          · rw [if_neg hz] at hmsg
            cases hmsg
    · rintro (hf | ht)
      · exact ⟨"Missing ledger for currency " ++ from_currency,
          by simp [get_fx_rate, hf]⟩
      · cases hfo : dbGet db from_currency with
        | none => exact ⟨"Missing ledger for currency " ++ from_currency,
            by simp [get_fx_rate, hfo]⟩
        | some fl => exact ⟨"Missing ledger for currency " ++ to_currency,
            by simp [get_fx_rate, hfo, ht]⟩

/-- Witness for C6 at the demo registry: the ok case at (usd, eur) and the
error case at (usd, jpy). -/
theorem c6_witness :
    get_fx_rate demoDB "usd" "eur" = .ok (eurLedger.base_rate / usdLedger.base_rate)
    ∧ (∃ msg, get_fx_rate demoDB "usd" "jpy" = .err msg) :=
  ⟨(c6_get_fx_rate_contract demoDB "usd" "eur").1 usdLedger eurLedger rfl rfl
      (by norm_num [usdLedger]),
   (c6_get_fx_rate_contract demoDB "usd" "jpy").2.mpr (Or.inr rfl)⟩

/-- C8: for currencies present in the registry with nonzero base rates,
`rate(A,B) * rate(B,A) = 1` (exactly, in the rational model — "within
decimal precision" in `rust_decimal`), and `rate(A,A) = 1`. -/
theorem c8_rate_inverse_identity (db : LedgerDB) (a b : String) (ea eb : Ledger)
    (ha : dbGet db a = some ea) (hb : dbGet db b = some eb)
    (hza : ea.base_rate ≠ 0) (hzb : eb.base_rate ≠ 0) :
    (∃ rab rba, get_fx_rate db a b = .ok rab ∧ get_fx_rate db b a = .ok rba
      ∧ rab * rba = 1)
    ∧ get_fx_rate db a a = .ok 1 := by
  constructor
  · refine ⟨eb.base_rate / ea.base_rate, ea.base_rate / eb.base_rate,
      by simp [get_fx_rate, ha, hb, hza],
      by simp [get_fx_rate, ha, hb, hzb], ?_⟩
    field_simp
  · have h : ea.base_rate / ea.base_rate = 1 := div_self hza
    simp [get_fx_rate, ha, hza, h]

/-- Witness for C8 at the demo registry (usd, eur). -/
theorem c8_witness :
    (∃ rab rba, get_fx_rate demoDB "usd" "eur" = .ok rab
      ∧ get_fx_rate demoDB "eur" "usd" = .ok rba ∧ rab * rba = 1)
    ∧ get_fx_rate demoDB "usd" "usd" = .ok 1 :=
  c8_rate_inverse_identity demoDB "usd" "eur" usdLedger eurLedger rfl rfl
    (by norm_num [usdLedger]) (by norm_num [eurLedger])

/-- C9: when the source currency's registry entry has base rate zero and
the target currency is present, computing the rate panics (decimal
division by zero) instead of returning the function's error result. -/
theorem c9_zero_base_rate_panics (db : LedgerDB) (from_currency to_currency : String)
    (fl tl : Ledger)
    (hf : dbGet db from_currency = some fl) (hz : fl.base_rate = 0)
    (ht : dbGet db to_currency = some tl) :
    get_fx_rate db from_currency to_currency = .panic
    ∧ ∀ msg, get_fx_rate db from_currency to_currency ≠ .err msg := by
  have h : get_fx_rate db from_currency to_currency = .panic := by
    simp [get_fx_rate, hf, ht, hz]
  refine ⟨h, fun msg hmsg => ?_⟩
  rw [h] at hmsg
  cases hmsg

/-- Witness for C9 at the zero-rate registry. -/
theorem c9_witness :
    get_fx_rate zeroDB "zzz" "usd" = .panic
    ∧ ∀ msg, get_fx_rate zeroDB "zzz" "usd" ≠ .err msg :=
  c9_zero_base_rate_panics zeroDB "zzz" "usd" zeroLedger usdLedger rfl rfl rfl

/-- C10: at settlement trigger, the decimal product
`request.amount * rate` is converted by a fallible u64 conversion; on
failure the task panics *before any transfer is submitted* (no messages
emitted), and settlement succeeds exactly when the conversion succeeds —
in particular any negative product always fails the conversion. -/
theorem c10_amount_conversion_guard (m : SpawnedMonitor) (rate : Decimal) :
    (decimalToU64 (m.execute.request.amount * rate) = none →
      settleOutcome m rate = .panicked [])
    ∧ (∀ amount, decimalToU64 (m.execute.request.amount * rate) = some amount →
      settleOutcome m rate =
        .settled [Msg.transfer m.to_ledger.liquidity m.execute.request.«to» amount
                    m.context_id,
                  Msg.action FX_SWAP_ACTION m.to_ledger.liquidity
                    m.execute.request.«from» Event.Completed m.context_id])
    ∧ (∀ q : Decimal, q < 0 → decimalToU64 q = none) := by
  refine ⟨fun h => by simp [settleOutcome, h],
          fun amount h => by simp [settleOutcome, h],
          fun q hq => by simp [decimalToU64, hq]⟩

/-- Witness for C10 at the demo monitor: a rate of -1 makes the product
negative, the conversion fails and the task panics with nothing submitted;
the rate 0.9 converts to 90 and settlement proceeds. -/
theorem c10_witness :
    settleOutcome demoMonitor (-1) = .panicked []
    ∧ settleOutcome demoMonitor (9/10) =
        .settled [Msg.transfer 2 20 90 7,
                  Msg.action FX_SWAP_ACTION 2 10 Event.Completed 7] := by
  constructor
  · exact (c10_amount_conversion_guard demoMonitor (-1)).1
      (by norm_num [decimalToU64, demoMonitor, demoExecute, demoRequest])
  · exact (c10_amount_conversion_guard demoMonitor (9/10)).2.1 90
      (by norm_num [decimalToU64, demoMonitor, demoExecute, demoRequest]; decide)

/-- C1 (amended): for a monitor spawned from an Execute, the settlement
transfer and the Completed announcement are both submitted from the
liquidity account of the *destination currency's* registry entry (the
`to_ledger` looked up at spawn time) — not necessarily the liquidity
account of the node whose settlement listener observed the Execute — with
the transfer addressed to the request's destination account, the Completed
action addressed to the request's source account, and both carrying the
swap's correlation context. -/
theorem c1_settlement_from_destination_ledger (self : Ledger) (db : LedgerDB)
    (resolve : AccountId → Option String) (execute : Execute) (context_id : Ctx)
    (m : SpawnedMonitor)
    (hspawn : spawnPhase self db resolve execute context_id = .ok m) :
    m.context_id = context_id ∧ m.execute = execute
    ∧ dbGet db m.to_currency = some m.to_ledger
    ∧ ∀ rate amount, decimalToU64 (execute.request.amount * rate) = some amount →
        settleOutcome m rate =
          .settled [Msg.transfer m.to_ledger.liquidity execute.request.«to» amount
                      context_id,
                    Msg.action FX_SWAP_ACTION m.to_ledger.liquidity
                      execute.request.«from» Event.Completed context_id] := by
  cases hg : get_currencies resolve execute.request with
  | error e =>
    rw [spawnPhase, hg] at hspawn
    cases hspawn
  | ok p =>
    obtain ⟨from_currency, to_currency⟩ := p
    simp only [spawnPhase, hg] at hspawn
    cases hdb : dbGet db to_currency with
    | none =>
      rw [hdb] at hspawn
      cases hspawn
    | some to_ledger =>
      rw [hdb] at hspawn
      cases hspawn
      refine ⟨rfl, rfl, hdb, fun rate amount h => ?_⟩
      simp [settleOutcome, h]

/-- Witness for C1 (amended): the demo spawn, settled at rate 0.9. -/
theorem c1_witness :
    demoMonitor.context_id = 7 ∧ demoMonitor.execute = demoExecute
    ∧ dbGet demoDB demoMonitor.to_currency = some demoMonitor.to_ledger
    ∧ settleOutcome demoMonitor (9/10) =
        .settled [Msg.transfer demoMonitor.to_ledger.liquidity
                    demoExecute.request.«to» 90 7,
                  Msg.action FX_SWAP_ACTION demoMonitor.to_ledger.liquidity
                    demoExecute.request.«from» Event.Completed 7] := by
  obtain ⟨h1, h2, h3, h4⟩ :=
    c1_settlement_from_destination_ledger usdLedger demoDB demoResolve demoExecute 7
      demoMonitor rfl
  exact ⟨h1, h2, h3,
    h4 (9/10) 90 (by norm_num [decimalToU64, demoExecute, demoRequest]; decide)⟩

/-- C1 counterexample: in the demo scenario the node observing the Execute
is the USD node (liquidity account 1), but the settlement transfer and the
Completed action are submitted from account 2 — the EUR (destination
currency) node's liquidity account — so the claim that both are submitted
from the observing node's liquidity account fails at this input. -/
theorem c1_counterexample :
    spawnPhase usdLedger demoDB demoResolve demoExecute 7 = .ok demoMonitor
    ∧ runMonitor demoMonitor [⟨demoDB, true⟩] =
        .settled [Msg.transfer 2 20 90 7,
                  Msg.action FX_SWAP_ACTION 2 10 Event.Completed 7]
    ∧ (2 : ℕ) ≠ usdLedger.liquidity := by
  refine ⟨rfl, ?_, by decide⟩
  rw [runMonitor_cons_ok demoMonitor ⟨demoDB, true⟩ [] (9/10) demo_rate]
  rw [if_pos (by simp)]
  simp [settleOutcome, decimalToU64, demoMonitor, demoExecute, demoRequest]
  norm_num
  decide

/-- C2: an Execute whose currency resolution fails at spawn time does not
merely abort that one swap — `launch_swap_task` panics *before*
`tokio::spawn`, on the settlement listener's own task, so the listener
loop dies and the remaining transfers of its stream (here a second,
identical, resolvable-by-anyone Execute) are never processed.  This
evaluates the code at the failing input of the code_bug report. -/
theorem c2_spawn_failure_kills_listener :
    observeTransferLoop usdLedger demoDB failResolve
      [(Event.Execute demoExecute, 7), (Event.Execute demoExecute, 8)] = .panicked
    ∧ observeTransferLoop usdLedger demoDB demoResolve
      [(Event.Execute demoExecute, 7), (Event.Execute demoExecute, 8)] =
        .ok [{ demoMonitor with context_id := 7 },
             { demoMonitor with context_id := 8 }] :=
  ⟨rfl, rfl⟩

/-- C7: for an inbound Request whose accounts resolve, the node whose
currency equals the resolved source currency publishes exactly one Quote —
rate `registry[to].base_rate / registry[from].base_rate`, intermediary the
node's own liquidity account (the registry entry for the node's currency
is the node itself, as `main.rs` constructs the map), sent from the node's
liquidity account to the request's source account with the inbound
correlation context — while a node whose currency differs publishes
nothing. -/
theorem c7_quote_iff_source_currency_matches (self : Ledger) (db : LedgerDB)
    (resolve : AccountId → Option String) (request : Request) (context_id : Ctx)
    (from_currency to_currency : String)
    (hres : get_currencies resolve request = .ok (from_currency, to_currency)) :
    (∀ to_ledger,
      from_currency = self.currency →
      dbGet db self.currency = some self →
      dbGet db to_currency = some to_ledger →
      self.base_rate ≠ 0 →
      handleActionEvent self db resolve (Event.Request request) context_id =
        .msgs [Msg.action FX_SWAP_ACTION self.liquidity request.«from»
                (Event.Quote { request := request,
                               rate := to_ledger.base_rate / self.base_rate,
                               intermediary := self.liquidity }) context_id])
    ∧ (from_currency ≠ self.currency →
        handleActionEvent self db resolve (Event.Request request) context_id =
          .msgs []) := by
  constructor
  · intro to_ledger heq hcons htl hz
    subst heq
    simp [handleActionEvent, hres, get_fx_rate, hcons, htl, hz, publish_quote]
  · intro hne
    simp [handleActionEvent, hres, hne]

/-- Witness for C7: the USD node quotes the demo request (rate 0.9,
intermediary its own liquidity account 1); the EUR node ignores it. -/
theorem c7_witness :
    handleActionEvent usdLedger demoDB demoResolve (Event.Request demoRequest) 5 =
      .msgs [Msg.action FX_SWAP_ACTION usdLedger.liquidity demoRequest.«from»
              (Event.Quote { request := demoRequest,
                             rate := eurLedger.base_rate / usdLedger.base_rate,
                             intermediary := usdLedger.liquidity }) 5]
    ∧ handleActionEvent eurLedger demoDB demoResolve (Event.Request demoRequest) 5 =
        .msgs [] :=
  ⟨(c7_quote_iff_source_currency_matches usdLedger demoDB demoResolve demoRequest 5
      "usd" "eur" rfl).1 eurLedger rfl rfl rfl (by norm_num [usdLedger]),
   (c7_quote_iff_source_currency_matches eurLedger demoDB demoResolve demoRequest 5
      "usd" "eur" rfl).2 (by decide)⟩

end FxSwap
